import Mathlib

/-!
Verification of the scatter-svg repository (a command-line utility turning
tabular point data into a scatter plot with collision-avoided labels).

The development shallowly embeds the pure computational content of
`src/scatter_svg/plot.py`:

* `load_csv_file` / the CSV branch of `load_stdin` — column-name heuristics
  and row-to-point conversion, over an abstract `DataFrame` (the result of
  `pandas.read_csv`, which is external).  Python exceptions are modelled with
  `Except`: `IndexError` arises from `df.columns[i]` out of range, and in
  `next(gen, default)` the default argument is evaluated before the generator
  is consumed, exactly as in Python.
* `create_scatter_plot` — extraction of x/y/label lists, the discrete-tier
  colouring branch (viridis fractions), the initial centred text labels, and
  the fixed `adjust_text` configuration.  A colour is modelled by the fraction
  handed to the viridis colormap, which maps equal fractions to equal colours.
* the label-layout solver — the repository delegates this to the external
  `adjustText` library, so it is modelled from the specification (§4.1 of the
  spec): force-directed relaxation with an iteration budget, early convergence
  exit, bounded per-iteration steps, and connector segments.

Numbers are modelled by `ℚ` (the Python values in play are decimal literals
and CSV numerals; no floating-point rounding is relevant to the claims).
-/

/-- A cell of a parsed CSV table: pandas yields strings or numbers. -/
inductive Cell where
  | str (s : String)
  | num (q : ℚ)
deriving DecidableEq

/-- Result of `pandas.read_csv`: named columns and rows of cells, row cells
aligned positionally with the column names. -/
structure DataFrame where
  columns : List String
  rows : List (List Cell)

/-- The one Python exception relevant to the loading code: `IndexError`
raised by `df.columns[i]` with `i` out of range. -/
inductive PyErr where
  | indexError
deriving DecidableEq

/-- A `{label, x, y}` point dict as built by the CSV loaders. -/
structure RawPoint where
  label : Cell
  x : Cell
  y : Cell
deriving DecidableEq

/-- The dict returned by `load_csv_file` and by the CSV branch of
`load_stdin`. -/
structure CsvData where
  points : List RawPoint
  xlabel : String
  ylabel : String
  title : String
deriving DecidableEq

/-- ASCII lowering of one character, as Python `str.lower` acts on the ASCII
column names in play. -/
def charLower (c : Char) : Char :=
  if c.toNat ≥ 65 && c.toNat ≤ 90 then Char.ofNat (c.toNat + 32) else c

/-- Python `s.lower()` (ASCII model). -/
def pyLower (s : String) : String :=
  String.mk (s.data.map charLower)

/-- Does the character list start with the given needle? -/
def startsWithSeq : List Char → List Char → Bool
  | _, [] => true
  | [], _ :: _ => false
  | a :: as, b :: bs => a == b && startsWithSeq as bs

/-- Does the character list contain the needle as a contiguous run? -/
def containsSeq : List Char → List Char → Bool
  | [], needle => needle.isEmpty
  | a :: as, needle => startsWithSeq (a :: as) needle || containsSeq as needle

/-- Python `needle in hay` on strings. -/
def pyIn (needle hay : String) : Bool :=
  containsSeq hay.data needle.data

/-- Predicate of the generator `"label" in c.lower() or "name" in c.lower()`
selecting the label column. -/
def isLabelCol (c : String) : Bool :=
  pyIn "label" (pyLower c) || pyIn "name" (pyLower c)

/-- Predicate selecting the x column:
`"x" in c.lower() or "speed" in c.lower() or "time" in c.lower()`. -/
def isXCol (c : String) : Bool :=
  pyIn "x" (pyLower c) || pyIn "speed" (pyLower c) || pyIn "time" (pyLower c)

/-- Predicate selecting the y column:
`"y" in c.lower() or "quality" in c.lower() or "tier" in c.lower()`. -/
def isYCol (c : String) : Bool :=
  pyIn "y" (pyLower c) || pyIn "quality" (pyLower c) || pyIn "tier" (pyLower c)

/-- Python `df.columns[i]`: the column name, or `IndexError` out of range. -/
def colAt (cols : List String) (i : Nat) : Except PyErr String :=
  match cols.get? i with
  | some c => Except.ok c
  | none => Except.error PyErr.indexError

/-- Python `row[c]` for a row aligned with `cols` (total model; the loaders
only apply it to names drawn from `cols`). -/
def rowGet (cols : List String) (row : List Cell) (c : String) : Cell :=
  (row.get? (cols.indexOf c)).getD (Cell.str "")

/-- `load_csv_file` of `plot.py` (lines 120–148), applied to the `DataFrame`
produced by the external `pandas.read_csv`.  Each `next(gen, df.columns[k])`
evaluates its default argument `df.columns[k]` before consuming the
generator, so an `IndexError` from the positional fallback is raised even
when a heuristic match exists; this ordering is preserved here. -/
def load_csv_file (df : DataFrame) : Except PyErr CsvData :=
  (colAt df.columns 0).bind (fun d0 =>
    let label_col := (df.columns.find? isLabelCol).getD d0
    (colAt df.columns 1).bind (fun d1 =>
      let x_col := (df.columns.find? isXCol).getD d1
      (colAt df.columns 2).bind (fun d2 =>
        let y_col := (df.columns.find? isYCol).getD d2
        Except.ok
          { points := df.rows.map (fun r =>
              { label := rowGet df.columns r label_col
                x := rowGet df.columns r x_col
                y := rowGet df.columns r y_col })
            xlabel := x_col
            ylabel := y_col
            title := "Scatter Plot" })))

/-- The value returned by `load_stdin`: either the raw JSON-parsed value (of
abstract type `J`, since `json.loads` returns arbitrary JSON data) or the
dict built by the CSV fallback. -/
inductive StdinResult (J : Type) where
  | jsonVal (v : J)
  | csvData (d : CsvData)
deriving DecidableEq

/-- `load_stdin` of `plot.py` (lines 56–106): try `json.loads` on the whole
stdin content (`jsonParse content = some v` models success, `none` models
`JSONDecodeError`); on failure fall back to CSV parsing of the same content
with the same column heuristics as `load_csv_file`.  `json.loads` and
`pandas.read_csv` are external and passed as parameters. -/
def load_stdin (J : Type) (jsonParse : String → Option J)
    (read_csv : String → DataFrame) (content : String) :
    Except PyErr (StdinResult J) :=
  match jsonParse content with
  | some v => Except.ok (StdinResult.jsonVal v)
  | none => Except.map StdinResult.csvData (load_csv_file (read_csv content))

/-- A point of the `data["points"]` list consumed by `create_scatter_plot`:
numeric `x`, `y` and a string `label`. -/
structure Point where
  x : ℚ
  y : ℚ
  label : String
deriving DecidableEq

/-- The data dict consumed by `create_scatter_plot`: a points list and
optional `title` / `xlabel` / `ylabel` keys (absent key = `none`, read with
`data.get(key, default)`). -/
structure PlotData where
  points : List Point
  title : Option String
  xlabel : Option String
  ylabel : Option String

/-- One `ax.text(x, y, label, ha=..., va=...)` artist as created by the
label comprehension of `create_scatter_plot`. -/
structure TextLabel where
  x : ℚ
  y : ℚ
  text : String
  ha : String
  va : String
deriving DecidableEq

/-- The keyword configuration handed to `adjust_text` in
`create_scatter_plot` (lines 255–264). -/
structure AdjustConfig where
  expand_points : ℚ × ℚ
  expand_text : ℚ × ℚ
  force_points : ℚ × ℚ
  force_text : ℚ × ℚ
  lim : Nat
deriving DecidableEq

/-- The colour argument of `ax.scatter`: either the list of fractions handed
to the `viridis` colormap (discrete-tier branch; the colormap is a fixed
deterministic function, so equal fractions give equal colours) or the
constant `"steelblue"`. -/
inductive PlotColors where
  | viridis (fracs : List ℚ)
  | steelblue
deriving DecidableEq

/-- Everything `create_scatter_plot` computes from its arguments before
handing off to the external renderer and layout solver: scatter coordinates,
labels, colouring, the initial text artists and the `adjust_text`
configuration, the axis texts, and the received figure parameters. -/
structure PlotResult where
  x_values : List ℚ
  y_values : List ℚ
  labels : List String
  unique_y : List ℚ
  colors : PlotColors
  texts : List TextLabel
  adjust : AdjustConfig
  xlabel : String
  ylabel : String
  title : String
  figsize : ℚ × ℚ
  style : String
deriving DecidableEq

/-- Python `sorted(set(y_values))`: the distinct y-values in increasing
order. -/
def uniqueSorted (ys : List ℚ) : List ℚ :=
  ys.dedup.insertionSort (· ≤ ·)

/-- The list comprehension
`[y_values.index(y) / len(unique_y) for y in y_values]`: for each point, the
index of the first occurrence of its y-value in the full y-value list,
divided by the number of distinct y-values. -/
def colorFracs (ys : List ℚ) : List ℚ :=
  ys.map (fun y => ((ys.indexOf y : ℕ) : ℚ) / ((uniqueSorted ys).length : ℚ))

/-- `create_scatter_plot` of `plot.py` (lines 204–283), restricted to its
pure computation: the figure-object side effects (`ax.scatter`, `ax.text`,
`adjust_text`, axes styling) are recorded as data.  The text artists are
built from `zip(x_values, y_values, labels)`, centred (`ha="center"`,
`va="center"`) on the point coordinates, exactly as in the source. -/
def create_scatter_plot (data : PlotData) (figsize : ℚ × ℚ := (12, 8))
    (style : String := "default") : PlotResult :=
  let points := data.points
  let x_values := points.map Point.x
  let y_values := points.map Point.y
  let labels := points.map Point.label
  let unique_y := uniqueSorted y_values
  let colors :=
    if unique_y.length ≤ 10 then PlotColors.viridis (colorFracs y_values)
    else PlotColors.steelblue
  { x_values := x_values
    y_values := y_values
    labels := labels
    unique_y := unique_y
    colors := colors
    texts := (x_values.zip (y_values.zip labels)).map (fun t =>
      { x := t.1, y := t.2.1, text := t.2.2, ha := "center", va := "center" })
    adjust :=
      { expand_points := (1.5, 1.5)
        expand_text := (1.2, 1.2)
        force_points := (0.5, 0.5)
        force_text := (0.5, 0.5)
        lim := 500 }
    xlabel := data.xlabel.getD "X"
    ylabel := data.ylabel.getD "Y"
    title := data.title.getD "Scatter Plot"
    figsize := figsize
    style := style }

/-- Modelled from the spec: the repository delegates label layout to the
external `adjustText` library, absent from `src/`; spec §3 gives the data
model.  An `AnchorPoint` is the immutable `{id, x, y}` a label describes. -/
structure AnchorPoint where
  id : Nat
  x : ℚ
  y : ℚ
deriving DecidableEq

/-- Modelled from the spec: a `LabelBox` `{anchor_id, width, height, x, y}`,
the label's current candidate position (`x`, `y` its centre) and
axis-aligned bounding-box size. -/
structure LabelBox where
  anchor_id : Nat
  width : ℚ
  height : ℚ
  x : ℚ
  y : ℚ
deriving DecidableEq

/-- Modelled from the spec: the solver's repulsion configuration
`{expand_points, expand_text, force_points, force_text, max_iterations}`
(spec §4.1). -/
structure SolverConfig where
  expand_points : ℚ × ℚ
  expand_text : ℚ × ℚ
  force_points : ℚ × ℚ
  force_text : ℚ × ℚ
  max_iterations : Nat
deriving DecidableEq

/-- Modelled from the spec: minimum label dimension; zero or negative widths
and heights are clamped to an epsilon rather than rejected (spec §7). -/
def dimEps : ℚ := 1 / 1000

/-- Modelled from the spec: the bounded per-iteration step size of §4.1
step 2b ("bounded per-iteration step size to avoid divergence"). -/
def maxStep : ℚ := 2

/-- Modelled from the spec: the convergence threshold of §4.1 step 2c
("total displacement this round falls below a convergence threshold"). -/
def convThreshold : ℚ := 1 / 1000

/-- Modelled from the spec: the distance threshold beyond which a connector
segment from anchor to label is recorded (§4.1 step 3). -/
def connThreshold : ℚ := 1 / 2

/-- Clamp a displacement component to `[-m, m]`. -/
def clampAbs (m v : ℚ) : ℚ :=
  max (-m) (min m v)

/-- One-dimensional overlap depth of two intervals given by centre and
half-extent; positive exactly when the intervals overlap. -/
def overlap1 (c1 h1 c2 h2 : ℚ) : ℚ :=
  min (c1 + h1) (c2 + h2) - max (c1 - h1) (c2 - h2)

/-- Direction in which a repelled box is pushed along one axis; ties are
broken deterministically (the spec leaves the symmetry-breaking epsilon to
the implementer). -/
def pushDir (a : ℚ) : ℚ :=
  if 0 < a then 1 else -1

/-- Modelled from the spec: repulsive force exerted on box `b` by an
overlapping box `o`, proportional to the overlap depth of the boxes inflated
per `expand_text` and scaled by `force_text` (§4.1 step 2a). -/
def textForce (cfg : SolverConfig) (b o : LabelBox) : ℚ × ℚ :=
  let ox := overlap1 b.x (cfg.expand_text.1 * b.width / 2)
    o.x (cfg.expand_text.1 * o.width / 2)
  let oy := overlap1 b.y (cfg.expand_text.2 * b.height / 2)
    o.y (cfg.expand_text.2 * o.height / 2)
  if 0 < ox ∧ 0 < oy then
    (pushDir (b.x - o.x) * ox * cfg.force_text.1,
      pushDir (b.y - o.y) * oy * cfg.force_text.2)
  else (0, 0)

/-- Modelled from the spec: repulsive force exerted on box `b` by an anchor
point's exclusion zone, using the box inflated per `expand_points` and
scaled by `force_points` (§4.1 step 2a). -/
def pointForce (cfg : SolverConfig) (b : LabelBox) (a : AnchorPoint) : ℚ × ℚ :=
  let ox := overlap1 b.x (cfg.expand_points.1 * b.width / 2) a.x 0
  let oy := overlap1 b.y (cfg.expand_points.2 * b.height / 2) a.y 0
  if 0 < ox ∧ 0 < oy then
    (pushDir (b.x - a.x) * ox * cfg.force_points.1,
      pushDir (b.y - a.y) * oy * cfg.force_points.2)
  else (0, 0)

/-- Componentwise sum of 2D force vectors. -/
def sumForces (l : List (ℚ × ℚ)) : ℚ × ℚ :=
  l.foldl (fun u v => (u.1 + v.1, u.2 + v.2)) (0, 0)

/-- All labels other than the one at position `i`. -/
def othersAt (ls : List LabelBox) (i : Nat) : List LabelBox :=
  (ls.enum.filter (fun p => p.1 != i)).map Prod.snd

/-- Modelled from the spec: total force on the label at position `i`
(§4.1 step 2b, "sum forces per label"): text–text repulsion from every other
label plus point–text repulsion from every anchor's exclusion zone. -/
def totalForce (cfg : SolverConfig) (anchors : List AnchorPoint)
    (ls : List LabelBox) (i : Nat) (b : LabelBox) : ℚ × ℚ :=
  sumForces ((othersAt ls i).map (textForce cfg b) ++
    anchors.map (pointForce cfg b))

/-- Displace one indexed label by its clamped total force; also returns the
magnitude of the displacement. -/
def moveLabel (cfg : SolverConfig) (anchors : List AnchorPoint)
    (ls : List LabelBox) (p : Nat × LabelBox) : LabelBox × ℚ :=
  let f := totalForce cfg anchors ls p.1 p.2
  let dx := clampAbs maxStep f.1
  let dy := clampAbs maxStep f.2
  ({ p.2 with x := p.2.x + dx, y := p.2.y + dy }, |dx| + |dy|)

/-- Modelled from the spec: one relaxation round (§4.1 step 2): compute and
apply every label's bounded displacement, and report the total displacement
of the round. -/
def solverRound (cfg : SolverConfig) (anchors : List AnchorPoint)
    (ls : List LabelBox) : List LabelBox × ℚ :=
  let moved := ls.enum.map (moveLabel cfg anchors ls)
  (moved.map Prod.fst, (moved.map Prod.snd).sum)

/-- Modelled from the spec: the iteration loop (§4.1 step 2): up to the given
fuel many rounds, exiting early when the round's total displacement falls
below `convThreshold`; returns the final boxes and the number of rounds
actually run.  Structural recursion on the fuel, so the loop is total by
construction — it cannot fail or diverge. -/
def solveGo (cfg : SolverConfig) (anchors : List AnchorPoint) :
    Nat → List LabelBox → List LabelBox × Nat
  | 0, ls => (ls, 0)
  | n + 1, ls =>
    let r := solverRound cfg anchors ls
    if r.2 < convThreshold then (r.1, 1)
    else ((solveGo cfg anchors n r.1).1, (solveGo cfg anchors n r.1).2 + 1)

/-- Modelled from the spec: initial placement (§4.1 step 1): one `LabelBox`
per anchor paired with its externally supplied text dimensions, centred on
its `AnchorPoint`, dimensions clamped below by `dimEps` (spec §7). -/
def initLabels (anchors : List AnchorPoint) (dims : List (ℚ × ℚ)) :
    List LabelBox :=
  (anchors.zip dims).map (fun p =>
    { anchor_id := p.1.id
      width := max dimEps p.2.1
      height := max dimEps p.2.2
      x := p.1.x
      y := p.1.y })

/-- Modelled from the spec: the Label Layout Solver (§4.1): initialise
anchor-centred boxes, then run the budgeted relaxation loop; returns the
best-effort final boxes together with the number of rounds consumed. -/
def solve (cfg : SolverConfig) (anchors : List AnchorPoint)
    (dims : List (ℚ × ℚ)) : List LabelBox × Nat :=
  solveGo cfg anchors cfg.max_iterations (initLabels anchors dims)

/-- Modelled from the spec: the connector segment of §4.1 step 3, recorded
for a label whose final position is farther than `connThreshold` from its
anchor. -/
def connectorFor (a : AnchorPoint) (b : LabelBox) :
    Option ((ℚ × ℚ) × (ℚ × ℚ)) :=
  if connThreshold * connThreshold <
      (b.x - a.x) * (b.x - a.x) + (b.y - a.y) * (b.y - a.y) then
    some ((a.x, a.y), (b.x, b.y))
  else none

/-- Modelled from the spec: connector segments for a solved layout
(§4.1 step 3). -/
def connectors (anchors : List AnchorPoint) (ls : List LabelBox) :
    List ((ℚ × ℚ) × (ℚ × ℚ)) :=
  (anchors.zip ls).filterMap (fun p => connectorFor p.1 p.2)

/-- Bridge from the `adjust_text` keyword configuration appearing in
`create_scatter_plot` to the spec solver's configuration (`lim` is the
maximum-iteration budget). -/
def toSolverConfig (a : AdjustConfig) : SolverConfig :=
  { expand_points := a.expand_points
    expand_text := a.expand_text
    force_points := a.force_points
    force_text := a.force_text
    max_iterations := a.lim }

/-- Concrete three-column frame used by several witnesses: heuristic matches
for all three roles and one data row. -/
def dfStd : DataFrame :=
  ⟨["name", "speed_ms", "quality_tier"], [[Cell.str "m", Cell.num 556, Cell.num 5]]⟩

/-- Concrete one-column frame whose lone column name matches all three
heuristics. -/
def dfHeur : DataFrame :=
  ⟨["name_x_tier"], [[Cell.str "m"]]⟩

/-- Concrete two-column frame, as `pandas.read_csv` would parse the stdin
content `"a,b\n1,2"`. -/
def dfTwo : DataFrame :=
  ⟨["a", "b"], [[Cell.num 1, Cell.num 2]]⟩

/-- Concrete model of `json.loads` succeeding exactly on the content `"1"`. -/
def jpOne : String → Option Unit :=
  fun s => if s = "1" then some () else none

lemma solverRound_fst_length (cfg : SolverConfig) (anchors : List AnchorPoint)
    (ls : List LabelBox) : (solverRound cfg anchors ls).1.length = ls.length := by
  simp [solverRound, List.length_map, List.enum_length]

lemma solveGo_iters_le (cfg : SolverConfig) (anchors : List AnchorPoint) :
    ∀ (n : Nat) (ls : List LabelBox), (solveGo cfg anchors n ls).2 ≤ n := by
  intro n
  induction n with
  | zero => intro ls; simp [solveGo]
  | succ n ih =>
    intro ls
    rw [solveGo]
    split
    · exact Nat.succ_le_succ (Nat.zero_le n)
    · exact Nat.succ_le_succ (ih _)

lemma solveGo_fst_length (cfg : SolverConfig) (anchors : List AnchorPoint) :
    ∀ (n : Nat) (ls : List LabelBox),
      (solveGo cfg anchors n ls).1.length = ls.length := by
  intro n
  induction n with
  | zero => intro ls; simp [solveGo]
  | succ n ih =>
    intro ls
    rw [solveGo]
    split
    · exact solverRound_fst_length cfg anchors ls
    · exact (ih _).trans (solverRound_fst_length cfg anchors ls)

lemma initLabels_length (anchors : List AnchorPoint) (dims : List (ℚ × ℚ)) :
    (initLabels anchors dims).length = (anchors.zip dims).length := by
  simp [initLabels]

/-- C1: For every input point set and configuration, the label-layout step
(the `adjust_text` invocation inside `create_scatter_plot`, modelled from the
spec's Label Layout Solver since `adjustText` is an external dependency)
terminates within the configured maximum number of iterations — here the
`lim := 500` configured by `create_scatter_plot` — and, being a total
function, never raises; when the budget is exhausted it still yields a
best-effort layout: one label box per anchor/dimension pair. -/
theorem solver_terminates_within_max_iterations (data : PlotData)
    (figsize : ℚ × ℚ) (style : String) (anchors : List AnchorPoint)
    (dims : List (ℚ × ℚ)) :
    (solve (toSolverConfig (create_scatter_plot data figsize style).adjust)
      anchors dims).2 ≤ 500 ∧
    (solve (toSolverConfig (create_scatter_plot data figsize style).adjust)
      anchors dims).1.length = (anchors.zip dims).length := by
  constructor
  · exact solveGo_iters_le _ anchors 500 _
  · exact (solveGo_fst_length _ anchors 500 _).trans
      (initLabels_length anchors dims)

/-- C4: For all inputs, the plotting step creates exactly one text label per
input point: the list of text artists built in `create_scatter_plot` has the
same length as the `points` list of the input data. -/
theorem one_text_label_per_point (data : PlotData) (figsize : ℚ × ℚ)
    (style : String) :
    (create_scatter_plot data figsize style).texts.length =
      data.points.length := by
  simp [create_scatter_plot, List.length_map, List.length_zip, min_self]

/-- C5: For every input point, the label's initial placement before any
adjustment is centred exactly on that point's anchor coordinates (text at
`(x, y)` with `ha="center"`, `va="center"`); and, on the spec-modelled
solver, an iteration budget of zero returns the anchor-centred initial
positions unchanged. -/
theorem labels_initially_centered (data : PlotData) (figsize : ℚ × ℚ)
    (style : String) (cfg : SolverConfig) (anchors : List AnchorPoint)
    (dims : List (ℚ × ℚ)) (h : cfg.max_iterations = 0) :
    (create_scatter_plot data figsize style).texts =
      data.points.map (fun p =>
        { x := p.x, y := p.y, text := p.label, ha := "center", va := "center" }) ∧
    (solve cfg anchors dims).1 = initLabels anchors dims := by
  constructor
  · simp [create_scatter_plot, List.zip_map', List.map_map]
  · simp [solve, h, solveGo]

/-- Witness for C5 at a concrete point and a concrete zero-budget solver
configuration. -/
theorem labels_initially_centered_witness :
    (create_scatter_plot ⟨[⟨1, 2, "a"⟩], none, none, none⟩ (12, 8)
      "default").texts = [⟨1, 2, "a", "center", "center"⟩] ∧
    (solve ⟨(1.5, 1.5), (1.2, 1.2), (0.5, 0.5), (0.5, 0.5), 0⟩ [⟨0, 3, 4⟩]
      [(2, 1)]).1 = initLabels [⟨0, 3, 4⟩] [(2, 1)] := by
  have h := labels_initially_centered ⟨[⟨1, 2, "a"⟩], none, none, none⟩
    (12, 8) "default" ⟨(1.5, 1.5), (1.2, 1.2), (0.5, 0.5), (0.5, 0.5), 0⟩
    [⟨0, 3, 4⟩] [(2, 1)] rfl
  exact ⟨h.1.trans rfl, h.2⟩

/-- C6: For an input whose `points` list is empty, `create_scatter_plot`
yields zero scatter coordinates and zero text labels; the discrete-tier
colouring branch is taken (the empty set of y-values has at most 10
elements) and its comprehension iterates over the empty y-value list, so the
colour list is empty and no division is performed. -/
theorem empty_points_empty_plot (title xlabel ylabel : Option String)
    (figsize : ℚ × ℚ) (style : String) :
    (create_scatter_plot ⟨[], title, xlabel, ylabel⟩ figsize style).x_values
        = [] ∧
    (create_scatter_plot ⟨[], title, xlabel, ylabel⟩ figsize style).texts
        = [] ∧
    (create_scatter_plot ⟨[], title, xlabel, ylabel⟩ figsize style).colors
        = PlotColors.viridis [] ∧
    (create_scatter_plot ⟨[], title, xlabel, ylabel⟩ figsize style).unique_y
        = [] :=
  ⟨rfl, rfl, rfl, rfl⟩

/-- C7: For a fixed input data dict, figure size, and style, two runs of
`create_scatter_plot` produce the same result — scatter coordinates,
colours, initial label placements and layout configuration included: the
embedded computation consumes nothing but its three arguments, so the output
is a deterministic function of the input. -/
theorem create_scatter_plot_deterministic (d1 d2 : PlotData)
    (f1 f2 : ℚ × ℚ) (s1 s2 : String) (hd : d1 = d2) (hf : f1 = f2)
    (hs : s1 = s2) :
    create_scatter_plot d1 f1 s1 = create_scatter_plot d2 f2 s2 := by
  rw [hd, hf, hs]

/-- Witness for C7: two textually separate runs on the same concrete input
agree. -/
theorem create_scatter_plot_deterministic_witness :
    create_scatter_plot ⟨[⟨1, 2, "a"⟩], none, none, none⟩ (12, 8) "default" =
      create_scatter_plot ⟨[⟨1, 2, "a"⟩], none, none, none⟩ (12, 8)
        "default" :=
  create_scatter_plot_deterministic ⟨[⟨1, 2, "a"⟩], none, none, none⟩
    ⟨[⟨1, 2, "a"⟩], none, none, none⟩ (12, 8) (12, 8) "default" "default"
    rfl rfl rfl

/-- C8: For every input, `create_scatter_plot` hands `adjust_text` one fixed
repulsion configuration: `expand_points=(1.5, 1.5)`, `expand_text=(1.2, 1.2)`,
`force_points=(0.5, 0.5)`, `force_text=(0.5, 0.5)` and a maximum-iteration
limit of 500. -/
theorem adjust_text_fixed_constants (data : PlotData) (figsize : ℚ × ℚ)
    (style : String) :
    (create_scatter_plot data figsize style).adjust =
      { expand_points := (1.5, 1.5)
        expand_text := (1.2, 1.2)
        force_points := (0.5, 0.5)
        force_text := (0.5, 0.5)
        lim := 500 } := rfl

lemma load_csv_file_ok_of_three (df : DataFrame)
    (h : 3 ≤ df.columns.length) :
    ∃ d, load_csv_file df = Except.ok d ∧
      d.points.length = df.rows.length ∧ d.title = "Scatter Plot" := by
  obtain ⟨cols, rows⟩ := df
  rcases cols with _ | ⟨a, cols⟩
  · simp at h
  rcases cols with _ | ⟨b, cols⟩
  · simp at h
  rcases cols with _ | ⟨c, cols⟩
  · simp at h
  exact ⟨_, rfl, by simp, rfl⟩

lemma load_csv_file_error_of_lt_three (df : DataFrame)
    (h : df.columns.length < 3) :
    load_csv_file df = Except.error PyErr.indexError := by
  obtain ⟨cols, rows⟩ := df
  rcases cols with _ | ⟨a, _ | ⟨b, _ | ⟨c, t⟩⟩⟩
  · rfl
  · rfl
  · rfl
  · simp at h; omega

/-- C2: For every CSV input with at least three columns, `load_csv_file`
selects the label column as the first column matching `isLabelCol` (lowercase
name containing `"label"` or `"name"`), falling back to column 0, the x
column as the first matching `isXCol` (`"x"`, `"speed"` or `"time"`), falling
back to column 1, the y column as the first matching `isYCol` (`"y"`,
`"quality"` or `"tier"`), falling back to column 2, and returns one
`{label, x, y}` point per data row with `xlabel`/`ylabel` set to the chosen
column names; the CSV branch of `load_stdin` performs the same computation on
the frame parsed from standard input. -/
theorem csv_column_heuristics (df : DataFrame) (c0 c1 c2c : String)
    (J : Type) (jsonParse : String → Option J)
    (read_csv : String → DataFrame) (content : String)
    (h0 : df.columns[0]? = some c0) (h1 : df.columns[1]? = some c1)
    (h2 : df.columns[2]? = some c2c) (hj : jsonParse content = none)
    (hr : read_csv content = df) :
    load_csv_file df = Except.ok
      { points := df.rows.map (fun r =>
          { label := rowGet df.columns r
              ((df.columns.find? isLabelCol).getD c0)
            x := rowGet df.columns r ((df.columns.find? isXCol).getD c1)
            y := rowGet df.columns r ((df.columns.find? isYCol).getD c2c) })
        xlabel := (df.columns.find? isXCol).getD c1
        ylabel := (df.columns.find? isYCol).getD c2c
        title := "Scatter Plot" } ∧
    load_stdin J jsonParse read_csv content =
      Except.map StdinResult.csvData (load_csv_file df) := by
  constructor
  · simp [load_csv_file, colAt, h0, h1, h2, Except.bind]
  · simp [load_stdin, hj, hr]

/-- Witness for C2 at a concrete three-column frame whose names exercise the
`"name"`, `"speed"` and `"tier"` heuristics. -/
theorem csv_column_heuristics_witness :
    load_csv_file dfStd = Except.ok
      { points := [{ label := Cell.str "m", x := Cell.num 556
                     y := Cell.num 5 }]
        xlabel := "speed_ms", ylabel := "quality_tier"
        title := "Scatter Plot" } ∧
    load_stdin Unit (fun _ => none) (fun _ => dfStd)
        "name,speed_ms,quality_tier" =
      Except.ok (StdinResult.csvData
        { points := [{ label := Cell.str "m", x := Cell.num 556
                       y := Cell.num 5 }]
          xlabel := "speed_ms", ylabel := "quality_tier"
          title := "Scatter Plot" }) := by
  have h := csv_column_heuristics dfStd "name" "speed_ms" "quality_tier"
    Unit (fun _ => none) (fun _ => dfStd) "name,speed_ms,quality_tier"
    rfl rfl rfl rfl rfl
  constructor
  · exact h.1.trans rfl
  · rw [h.2, h.1]
    rfl

/-- C9: For every CSV input whose header has fewer than three columns,
`load_csv_file` (and hence the CSV branch of `load_stdin`) raises
`IndexError`, even when columns matching the label/x/y name heuristics are
present, because the positional fallbacks `df.columns[1]` and
`df.columns[2]` are evaluated unconditionally as default arguments to
`next()`; with three or more columns these index accesses never fail and the
loader returns a dict. -/
theorem csv_positional_fallback_index_error (df : DataFrame) :
    (df.columns.length < 3 →
      load_csv_file df = Except.error PyErr.indexError) ∧
    (3 ≤ df.columns.length → ∃ d, load_csv_file df = Except.ok d) := by
  constructor
  · exact load_csv_file_error_of_lt_three df
  · intro h
    obtain ⟨d, hd, -, -⟩ := load_csv_file_ok_of_three df h
    exact ⟨d, hd⟩

/-- Witness for C9: a one-column frame whose lone column name matches all
three heuristics still raises `IndexError`, while a three-column frame
loads. -/
theorem csv_positional_fallback_index_error_witness :
    load_csv_file dfHeur = Except.error PyErr.indexError ∧
    (∃ d, load_csv_file dfStd = Except.ok d) :=
  ⟨(csv_positional_fallback_index_error dfHeur).1 (by decide),
    (csv_positional_fallback_index_error dfStd).2 (by decide)⟩

/-- C3 counterexample: on the stdin content `"a,b\n1,2"` (JSON parsing
fails; `pandas.read_csv` yields the two-column frame `dfTwo`), the CSV
fallback of `load_stdin` raises `IndexError` instead of returning a dict, so
the unconditional claim that the fallback returns a dict with one point per
row is false. -/
theorem load_stdin_csv_fallback_two_columns_raises :
    load_stdin Unit (fun _ => none) (fun _ => dfTwo) "a,b\n1,2" =
      Except.error PyErr.indexError := rfl

/-- C3 (amended): For every stdin content, `load_stdin` returns the
JSON-parsed value exactly when the content parses as JSON; it falls back to
CSV parsing if and only if JSON parsing raises `JSONDecodeError`; and, when
the parsed CSV has at least three header columns, the CSV fallback returns a
dict whose `points` has one entry per CSV data row and whose `title` is the
constant `"Scatter Plot"`. -/
theorem load_stdin_json_first_csv_fallback (J : Type)
    (jsonParse : String → Option J) (read_csv : String → DataFrame)
    (content : String) :
    (∀ v, jsonParse content = some v →
      load_stdin J jsonParse read_csv content =
        Except.ok (StdinResult.jsonVal v)) ∧
    (jsonParse content = none →
      load_stdin J jsonParse read_csv content =
        Except.map StdinResult.csvData (load_csv_file (read_csv content))) ∧
    (jsonParse content = none → 3 ≤ (read_csv content).columns.length →
      ∃ d, load_stdin J jsonParse read_csv content =
          Except.ok (StdinResult.csvData d) ∧
        d.points.length = (read_csv content).rows.length ∧
        d.title = "Scatter Plot") := by
  refine ⟨fun v hv => ?_, fun hn => ?_, fun hn h3 => ?_⟩
  · simp [load_stdin, hv]
  · simp [load_stdin, hn]
  · obtain ⟨d, hd, hl, ht⟩ := load_csv_file_ok_of_three (read_csv content) h3
    exact ⟨d, by simp [load_stdin, hn, hd, Except.map], hl, ht⟩

/-- Witness for C3: a parser succeeding exactly on `"1"` returns the JSON
value there, and falls back to the three-column CSV frame elsewhere. -/
theorem load_stdin_json_first_csv_fallback_witness :
    load_stdin Unit jpOne (fun _ => dfStd) "1" =
      Except.ok (StdinResult.jsonVal ()) ∧
    (∃ d, load_stdin Unit jpOne (fun _ => dfStd) "x" =
        Except.ok (StdinResult.csvData d) ∧
      d.points.length = 1 ∧ d.title = "Scatter Plot") := by
  constructor
  · exact (load_stdin_json_first_csv_fallback Unit jpOne
      (fun _ => dfStd) "1").1 () rfl
  · exact (load_stdin_json_first_csv_fallback Unit jpOne
      (fun _ => dfStd) "x").2.2 rfl (by decide)

/-- C10: Whenever the input has at most 10 distinct y-values, the colour
fraction assigned to each point equals the index of the first occurrence of
that point's y-value in the full input-order y-value list divided by the
number of distinct y-values; points with equal y-values therefore receive
the same colour fraction; and since the index is taken in the full list
rather than the sorted unique one, the fraction reaches 1 as soon as a
y-value first occurs at a position at least the number of distinct y-values
and can exceed 1, as `[1, 1, 1, 2]` shows (the value 2 first occurs at
index 3 with 2 distinct values, giving the fraction 3/2). -/
theorem viridis_fraction_first_index_over_distinct :
    (∀ (data : PlotData) (figsize : ℚ × ℚ) (style : String),
      (uniqueSorted (data.points.map Point.y)).length ≤ 10 →
      (create_scatter_plot data figsize style).colors =
        PlotColors.viridis (colorFracs (data.points.map Point.y))) ∧
    (∀ (ys : List ℚ) (i j : ℕ), ys[i]? = ys[j]? →
      (colorFracs ys)[i]? = (colorFracs ys)[j]?) ∧
    (∀ (ys : List ℚ) (y : ℚ), y ∈ ys →
      (uniqueSorted ys).length ≤ ys.indexOf y →
      1 ≤ ((ys.indexOf y : ℕ) : ℚ) / ((uniqueSorted ys).length : ℚ)) ∧
    (1 < (([(1 : ℚ), 1, 1, 2].indexOf (2 : ℚ) : ℕ) : ℚ) /
        ((uniqueSorted [(1 : ℚ), 1, 1, 2]).length : ℚ) ∧
      (uniqueSorted [(1 : ℚ), 1, 1, 2]).length ≤
        [(1 : ℚ), 1, 1, 2].indexOf (2 : ℚ)) := by
  refine ⟨fun data figsize style h => ?_, fun ys i j hij => ?_,
    fun ys y hy hk => ?_, ?_, ?_⟩
  · simp only [create_scatter_plot]
    rw [if_pos h]
  · simp only [colorFracs, List.getElem?_map]
    rw [hij]
  · have hmem : y ∈ ys.dedup := List.mem_dedup.2 hy
    have hpos : 0 < (uniqueSorted ys).length := by
      rw [uniqueSorted, List.length_insertionSort]
      exact List.length_pos.2 (List.ne_nil_of_mem hmem)
    rw [one_le_div (by exact_mod_cast hpos)]
    exact_mod_cast hk
  · have hidx : [(1 : ℚ), 1, 1, 2].indexOf (2 : ℚ) = 3 := by decide
    have hlen : (uniqueSorted [(1 : ℚ), 1, 1, 2]).length = 2 := by
      rw [uniqueSorted, List.length_insertionSort]
      decide
    rw [hidx, hlen]
    norm_num
  · have hidx : [(1 : ℚ), 1, 1, 2].indexOf (2 : ℚ) = 3 := by decide
    have hlen : (uniqueSorted [(1 : ℚ), 1, 1, 2]).length = 2 := by
      rw [uniqueSorted, List.length_insertionSort]
      decide
    rw [hidx, hlen]
    omega

/-- Witness for C10: a two-point input with equal y-values gets the viridis
branch and equal fractions, and the fraction of the `[1, 1, 1, 2]` example
reaches at least 1. -/
theorem viridis_fraction_first_index_over_distinct_witness :
    (create_scatter_plot ⟨[⟨1, 4, "a"⟩, ⟨2, 4, "b"⟩], none, none, none⟩
        (12, 8) "default").colors =
      PlotColors.viridis (colorFracs [4, 4]) ∧
    (colorFracs [(4 : ℚ), 4])[0]? = (colorFracs [(4 : ℚ), 4])[1]? ∧
    1 ≤ (([(1 : ℚ), 1, 1, 2].indexOf (2 : ℚ) : ℕ) : ℚ) /
      ((uniqueSorted [(1 : ℚ), 1, 1, 2]).length : ℚ) := by
  have h := viridis_fraction_first_index_over_distinct
  exact ⟨h.1 ⟨[⟨1, 4, "a"⟩, ⟨2, 4, "b"⟩], none, none, none⟩ (12, 8)
      "default" (by decide),
    h.2.1 [(4 : ℚ), 4] 0 1 (by decide),
    h.2.2.1 [(1 : ℚ), 1, 1, 2] 2 (by decide) (by decide)⟩
